import Mathlib

/-!
Shallow embedding of `src/lna_watcher.js`, a polling watcher for the
"local-network-access" permission.  The watcher keeps a module-level
`lastState` (initially `null`) and a `started` flag, and on every timer
tick queries the permission oracle, compares the observed state to the
stored one, and on a change drives the overlay dialog (show on
`"prompt"`, hide on `"granted"`/`"denied"`) and fires the prompt
trigger on entering `"prompt"`.

The DOM is modelled by the observable bits the script touches: whether
the style block was injected, whether the overlay dialog element exists
(and, when it does, whether it carries the `show` class), and whether
`document.body` carries the `__lna_blocked__` class.  JavaScript `null`
for `lastState` is `Option.none`; a failed `navigator.permissions.query`
(caught in `queryLNA`, which then returns `null`) is an
`Except.error` input.  Effects are made visible in the tick result: the
number of oracle reads performed and the list of UI/trigger actions.
-/

/-- Observable DOM state touched by the script: the injected style block,
the overlay dialog element (`none` when not injected, `some b` when
injected with the `show` class iff `b`), and the `__lna_blocked__`
class on `document.body`. -/
structure Dom where
  styleInjected : Bool
  dialog : Option Bool
  bodyBlocked : Bool
deriving DecidableEq, Repr

/-- `injectStyle()`: no-op when the style block already exists, else insert it. -/
def injectStyle (d : Dom) : Dom :=
  if d.styleInjected then d else { d with styleInjected := true }

/-- `injectDialog()`: no-op when the dialog element already exists, else
insert it without the `show` class. -/
def injectDialog (d : Dom) : Dom :=
  if d.dialog.isSome then d else { d with dialog := some false }

/-- `showDialog()`: add `__lna_blocked__` to the body and, when the dialog
element exists (`?.` guard), add the `show` class to it. -/
def showDialog (d : Dom) : Dom :=
  { d with bodyBlocked := true, dialog := d.dialog.map (fun _ => true) }

/-- `hideDialog()`: remove `__lna_blocked__` from the body and, when the
dialog element exists (`?.` guard), remove the `show` class from it. -/
def hideDialog (d : Dom) : Dom :=
  { d with bodyBlocked := false, dialog := d.dialog.map (fun _ => false) }

/-- The overlay is visible when the dialog element exists and carries the
`show` class (which sets `display: flex`). -/
def overlayVisible (d : Dom) : Bool :=
  d.dialog == some true

/-- `queryLNA()`: one oracle read.  The input is the outcome of
`navigator.permissions.query` (the `state` string on success, or the
thrown error); the `try`/`catch` turns any failure into `null`. -/
def queryLNA (q : Except String String) : Option String :=
  match q with
  | Except.ok s => some s
  | Except.error _ => none

/-- `triggerPrompt()`: one `fetch` to `http://127.0.0.1`, with the
`catch (_) {}` swallowing any failure, so the function itself always
resolves. -/
def triggerPrompt (fetchResult : Except String Unit) : Except String Unit :=
  match fetchResult with
  | Except.ok _ => Except.ok ()
  | Except.error _ => Except.ok ()

/-- The watcher's module-level mutable state: `lastState` (a string or
`null`), the `started` flag, and the DOM it drives. -/
structure WatcherState where
  lastState : Option String
  started : Bool
  dom : Dom
deriving DecidableEq, Repr

/-- One of the effects a tick can perform: `showDialog()`, `hideDialog()`,
or a `triggerPrompt()` call. -/
inductive UiAction where
  | show
  | hide
  | trigger
deriving DecidableEq, Repr

/-- Result of one tick: the updated watcher state, how many oracle reads
were performed, and the UI/trigger actions in order. -/
structure TickResult where
  state : WatcherState
  oracleCalls : Nat
  actions : List UiAction
deriving DecidableEq, Repr

/-- `watchPermission()`: one tick.  Bail out when not started (no oracle
read); read the oracle; bail out on a `null` result; bail out when the
observed state equals `lastState`; otherwise store the observed state
and run the three dispatch `if`s in source order. -/
def watchPermission (w : WatcherState) (q : Except String String)
    (fetchResult : Except String Unit) : TickResult :=
  if w.started = false then ⟨w, 0, []⟩ else
  match queryLNA q with
  | none => ⟨w, 1, []⟩
  | some s =>
    if some s = w.lastState then ⟨w, 1, []⟩ else
    let w1 : WatcherState := { w with lastState := some s }
    let r1 : Dom × List UiAction :=
      if s = "prompt" then
        let _ := triggerPrompt fetchResult
        (showDialog w1.dom, [UiAction.show, UiAction.trigger])
      else (w1.dom, [])
    let r2 : Dom × List UiAction :=
      if s = "granted" then (hideDialog r1.1, r1.2 ++ [UiAction.hide]) else r1
    let r3 : Dom × List UiAction :=
      if s = "denied" then (hideDialog r2.1, r2.2 ++ [UiAction.hide]) else r2
    ⟨{ w1 with dom := r3.1 }, 1, r3.2⟩

/-- One tick's input: the oracle outcome and the fetch outcome the
fire-and-forget trigger would see. -/
abbrev TickInput := Except String String × Except String Unit

/-- Run a sequence of ticks, threading the watcher state. -/
def runTicks (w : WatcherState) : List TickInput → WatcherState
  | [] => w
  | i :: rest => runTicks (watchPermission w i.1 i.2).state rest

/-- All actions performed over a sequence of ticks, in order. -/
def runActions (w : WatcherState) : List TickInput → List UiAction
  | [] => []
  | i :: rest =>
    (watchPermission w i.1 i.2).actions
      ++ runActions (watchPermission w i.1 i.2).state rest

/-- Total number of oracle reads over a sequence of ticks. -/
def runOracleCalls (w : WatcherState) : List TickInput → Nat
  | [] => 0
  | i :: rest =>
    (watchPermission w i.1 i.2).oracleCalls
      + runOracleCalls (watchPermission w i.1 i.2).state rest

/-- The document before the script runs: nothing injected, body unmarked. -/
def emptyDom : Dom := ⟨false, none, false⟩

/-- State right after `start()` injected style and dialog, before the
2500-unit timeout fires: `lastState = null`, `started = false`. -/
def initSession : WatcherState :=
  ⟨none, false, injectDialog (injectStyle emptyDom)⟩

/-- State when the first tick runs: the timeout has set `started = true`. -/
def activeSession : WatcherState := { initSession with started := true }

/-- The oracle contract: on success, `state` is one of the three real
permission values `"prompt"`, `"granted"`, `"denied"`. -/
def validOutcome (q : Except String String) : Prop :=
  ∀ s, q = Except.ok s → s = "prompt" ∨ s = "granted" ∨ s = "denied"

instance (q : Except String String) : Decidable (validOutcome q) := by
  unfold validOutcome
  cases q with
  | ok s =>
    refine decidable_of_iff (s = "prompt" ∨ s = "granted" ∨ s = "denied") ?_
    constructor
    · intro h t ht
      cases ht
      exact h
    · intro h
      exact h s rfl
  | error e =>
    refine decidable_of_iff True ?_
    constructor
    · intro _ t ht
      cases ht
    · intro _
      trivial

/-- Count of trigger-prompt actions in an action log. -/
def triggerCount (l : List UiAction) : Nat :=
  l.countP (fun a => a == UiAction.trigger)

/-- Spec-side notion for the trigger law, following the spec's words: the
number of distinct transitions into the undecided (`"prompt"`) state
along a sequence of oracle outcomes, starting from a stored value
`last`; failed reads and same-state observations are not transitions. -/
def specPromptTransitions (last : Option String) : List TickInput → Nat
  | [] => 0
  | i :: rest =>
    match i.1 with
    | Except.error _ => specPromptTransitions last rest
    | Except.ok s =>
      if some s = last then specPromptTransitions last rest
      else (if s = "prompt" then 1 else 0) + specPromptTransitions (some s) rest

/-! ### Per-tick behaviour lemmas -/

theorem tick_not_started (w : WatcherState) (q : Except String String)
    (fr : Except String Unit) (h : w.started = false) :
    watchPermission w q fr = ⟨w, 0, []⟩ := by
  simp [watchPermission, h]

theorem tick_error (w : WatcherState) (e : String) (fr : Except String Unit)
    (h : w.started = true) :
    watchPermission w (Except.error e) fr = ⟨w, 1, []⟩ := by
  simp [watchPermission, h, queryLNA]

theorem tick_same (w : WatcherState) (s : String) (fr : Except String Unit)
    (h : w.started = true) (h2 : some s = w.lastState) :
    watchPermission w (Except.ok s) fr = ⟨w, 1, []⟩ := by
  simp [watchPermission, h, queryLNA, ← h2]

theorem tick_prompt (w : WatcherState) (fr : Except String Unit)
    (h : w.started = true) (h2 : some "prompt" ≠ w.lastState) :
    watchPermission w (Except.ok "prompt") fr =
      ⟨{ w with lastState := some "prompt", dom := showDialog w.dom }, 1,
        [UiAction.show, UiAction.trigger]⟩ := by
  simp [watchPermission, h, queryLNA, h2]

theorem tick_granted (w : WatcherState) (fr : Except String Unit)
    (h : w.started = true) (h2 : some "granted" ≠ w.lastState) :
    watchPermission w (Except.ok "granted") fr =
      ⟨{ w with lastState := some "granted", dom := hideDialog w.dom }, 1,
        [UiAction.hide]⟩ := by
  simp [watchPermission, h, queryLNA, h2]

theorem tick_denied (w : WatcherState) (fr : Except String Unit)
    (h : w.started = true) (h2 : some "denied" ≠ w.lastState) :
    watchPermission w (Except.ok "denied") fr =
      ⟨{ w with lastState := some "denied", dom := hideDialog w.dom }, 1,
        [UiAction.hide]⟩ := by
  simp [watchPermission, h, queryLNA, h2]

theorem tick_other (w : WatcherState) (s : String) (fr : Except String Unit)
    (h : w.started = true) (h2 : some s ≠ w.lastState)
    (h3 : s ≠ "prompt") (h4 : s ≠ "granted") (h5 : s ≠ "denied") :
    watchPermission w (Except.ok s) fr =
      ⟨{ w with lastState := some s }, 1, []⟩ := by
  simp [watchPermission, h, queryLNA, h2, h3, h4, h5]

/-! ### Dom lemmas -/

theorem showDialog_visible (d : Dom) (hd : d.dialog.isSome = true) :
    overlayVisible (showDialog d) = true := by
  cases h : d.dialog with
  | none => rw [h] at hd; cases hd
  | some b => simp [showDialog, overlayVisible, h]

theorem hideDialog_not_visible (d : Dom) :
    overlayVisible (hideDialog d) = false := by
  cases h : d.dialog <;> simp [hideDialog, overlayVisible, h]

theorem showDialog_isSome (d : Dom) :
    (showDialog d).dialog.isSome = d.dialog.isSome := by
  cases h : d.dialog <;> simp [showDialog, h]

theorem hideDialog_isSome (d : Dom) :
    (hideDialog d).dialog.isSome = d.dialog.isSome := by
  cases h : d.dialog <;> simp [hideDialog, h]

/-! ### Run-level lemmas -/

/-- Invariant maintained by the watcher once active: it stays started, the
dialog element stays injected, the overlay is visible exactly when the
stored state is `"prompt"`, and the stored state is only ever `null` or
one of the three real permission values. -/
def WatcherInv (w : WatcherState) : Prop :=
  w.started = true ∧ w.dom.dialog.isSome = true ∧
  (overlayVisible w.dom = true ↔ w.lastState = some "prompt") ∧
  (w.lastState = none ∨ w.lastState = some "prompt" ∨
    w.lastState = some "granted" ∨ w.lastState = some "denied")

theorem tick_preserves_inv (w : WatcherState) (i : TickInput)
    (hv : validOutcome i.1) (hw : WatcherInv w) :
    WatcherInv (watchPermission w i.1 i.2).state := by
  obtain ⟨hs, hd, hvis, hreal⟩ := hw
  obtain ⟨q, fr⟩ := i
  cases q with
  | error e =>
    rw [tick_error w e fr hs]
    exact ⟨hs, hd, hvis, hreal⟩
  | ok s =>
    by_cases hsame : some s = w.lastState
    · rw [tick_same w s fr hs hsame]
      exact ⟨hs, hd, hvis, hreal⟩
    · rcases hv s rfl with h | h | h <;> subst h
      · rw [tick_prompt w fr hs hsame]
        refine ⟨hs, ?_, ?_, Or.inr (Or.inl rfl)⟩
        · rw [showDialog_isSome]; exact hd
        · simp [showDialog_visible w.dom hd]
      · rw [tick_granted w fr hs hsame]
        refine ⟨hs, ?_, ?_, Or.inr (Or.inr (Or.inl rfl))⟩
        · rw [hideDialog_isSome]; exact hd
        · simp [hideDialog_not_visible w.dom]
      · rw [tick_denied w fr hs hsame]
        refine ⟨hs, ?_, ?_, Or.inr (Or.inr (Or.inr rfl))⟩
        · rw [hideDialog_isSome]; exact hd
        · simp [hideDialog_not_visible w.dom]

theorem runTicks_preserves_inv (l : List TickInput) :
    ∀ w : WatcherState, WatcherInv w → (∀ i ∈ l, validOutcome i.1) →
      WatcherInv (runTicks w l) := by
  induction l with
  | nil => intro w hw _; exact hw
  | cons i rest ih =>
    intro w hw hv
    rw [runTicks]
    exact ih _ (tick_preserves_inv w i (hv i (List.mem_cons_self i rest)) hw)
      (fun j hj => hv j (List.mem_cons_of_mem i hj))

theorem inv_activeSession : WatcherInv activeSession := by
  unfold WatcherInv
  decide

theorem runTicks_append (a b : List TickInput) :
    ∀ w : WatcherState, runTicks w (a ++ b) = runTicks (runTicks w a) b := by
  induction a with
  | nil => intro w; rfl
  | cons i rest ih => intro w; rw [List.cons_append, runTicks, runTicks, ih]

theorem runTicks_error_ticks (errs : List (String × Except String Unit)) :
    ∀ w : WatcherState, w.started = true →
      runTicks w (errs.map fun e => (Except.error e.1, e.2)) = w := by
  induction errs with
  | nil => intro w _; rfl
  | cons e rest ih =>
    intro w hs
    rw [List.map_cons, runTicks]
    have h1 : watchPermission w (Except.error e.1) e.2 = ⟨w, 1, []⟩ :=
      tick_error w e.1 e.2 hs
    rw [h1]
    exact ih w hs

theorem triggerCount_append (a b : List UiAction) :
    triggerCount (a ++ b) = triggerCount a + triggerCount b :=
  List.countP_append _ _ _

theorem specPromptTransitions_cons_error (last : Option String) (e : String)
    (fr : Except String Unit) (rest : List TickInput) :
    specPromptTransitions last ((Except.error e, fr) :: rest) =
      specPromptTransitions last rest := rfl

theorem specPromptTransitions_cons_ok (last : Option String) (s : String)
    (fr : Except String Unit) (rest : List TickInput) :
    specPromptTransitions last ((Except.ok s, fr) :: rest) =
      if some s = last then specPromptTransitions last rest
      else (if s = "prompt" then 1 else 0) +
        specPromptTransitions (some s) rest := rfl

theorem runActions_triggerCount (l : List TickInput) :
    ∀ w : WatcherState, w.started = true →
      triggerCount (runActions w l) = specPromptTransitions w.lastState l := by
  induction l with
  | nil => intro w _; rfl
  | cons i rest ih =>
    intro w hs
    obtain ⟨q, fr⟩ := i
    cases q with
    | error e =>
      simp only [runActions, tick_error w e fr hs, List.nil_append,
        specPromptTransitions_cons_error]
      exact ih w hs
    | ok s =>
      by_cases hsame : some s = w.lastState
      · simp only [runActions, tick_same w s fr hs hsame, List.nil_append,
          specPromptTransitions_cons_ok, if_pos hsame]
        exact ih w hs
      · rw [specPromptTransitions_cons_ok, if_neg hsame]
        by_cases hp : s = "prompt"
        · subst hp
          simp only [runActions, tick_prompt w fr hs hsame, triggerCount_append,
            if_pos rfl]
          rw [ih { w with lastState := some "prompt", dom := showDialog w.dom } hs]
          rfl
        · by_cases hg : s = "granted"
          · subst hg
            simp only [runActions, tick_granted w fr hs hsame, triggerCount_append,
              if_neg hp]
            rw [ih { w with lastState := some "granted", dom := hideDialog w.dom } hs]
            rfl
          · by_cases hd : s = "denied"
            · subst hd
              simp only [runActions, tick_denied w fr hs hsame, triggerCount_append,
                if_neg hp]
              rw [ih { w with lastState := some "denied", dom := hideDialog w.dom } hs]
              rfl
            · simp only [runActions, tick_other w s fr hs hsame hp hg hd,
                List.nil_append, if_neg hp]
              rw [ih { w with lastState := some s } hs]
              exact (Nat.zero_add _).symm

theorem tick_change_lastState (w : WatcherState) (s : String)
    (fr : Except String Unit) (hs : w.started = true)
    (hne : some s ≠ w.lastState) :
    (watchPermission w (Except.ok s) fr).state.lastState = some s := by
  by_cases hp : s = "prompt"
  · subst hp; rw [tick_prompt w fr hs hne]
  · by_cases hg : s = "granted"
    · subst hg; rw [tick_granted w fr hs hne]
    · by_cases hd : s = "denied"
      · subst hd; rw [tick_denied w fr hs hne]
      · rw [tick_other w s fr hs hne hp hg hd]

/-! ### Claims -/

/-- C1: starting from the active session and restricting oracle successes
to the three real permission values, the overlay is visible after any
sequence of ticks iff the stored state — the value observed by the most
recent state-changing tick — is `"prompt"` (undecided); a state-changing
tick observing `"granted"` or `"denied"` leaves the overlay hidden; and
a tick that does not change the stored state leaves the DOM exactly as
it was. -/
theorem overlay_visible_iff_undecided :
    (∀ l : List TickInput, (∀ i ∈ l, validOutcome i.1) →
      (overlayVisible (runTicks activeSession l).dom = true ↔
        (runTicks activeSession l).lastState = some "prompt"))
    ∧ (∀ (w : WatcherState) (s : String) (fr : Except String Unit),
        w.started = true → (s = "granted" ∨ s = "denied") →
        some s ≠ w.lastState →
        overlayVisible (watchPermission w (Except.ok s) fr).state.dom = false)
    ∧ (∀ (w : WatcherState) (q : Except String String) (fr : Except String Unit),
        (watchPermission w q fr).state.lastState = w.lastState →
        (watchPermission w q fr).state.dom = w.dom) := by
  refine ⟨?_, ?_, ?_⟩
  · intro l hv
    exact (runTicks_preserves_inv l activeSession inv_activeSession hv).2.2.1
  · intro w s fr hs hgd hne
    rcases hgd with h | h <;> subst h
    · rw [tick_granted w fr hs hne]
      exact hideDialog_not_visible w.dom
    · rw [tick_denied w fr hs hne]
      exact hideDialog_not_visible w.dom
  · intro w q fr h
    by_cases hs : w.started = true
    · cases q with
      | error e => rw [tick_error w e fr hs]
      | ok s =>
        by_cases hsame : some s = w.lastState
        · rw [tick_same w s fr hs hsame]
        · exfalso
          rw [tick_change_lastState w s fr hs hsame] at h
          exact hsame h
    · have hs2 : w.started = false := by
        revert hs; cases w.started <;> simp
      rw [tick_not_started w q fr hs2]

/-- Witness for C1 at concrete inputs: one prompt tick makes the overlay
visible with stored state `"prompt"`; a first granted tick leaves it
hidden; a failed read leaves the DOM untouched. -/
theorem overlay_visible_iff_undecided_witness :
    (overlayVisible (runTicks activeSession
        [(Except.ok "prompt", Except.ok ())]).dom = true ↔
      (runTicks activeSession
        [(Except.ok "prompt", Except.ok ())]).lastState = some "prompt")
    ∧ overlayVisible (watchPermission activeSession (Except.ok "granted")
        (Except.ok ())).state.dom = false
    ∧ (watchPermission activeSession (Except.error "boom")
        (Except.ok ())).state.dom = activeSession.dom :=
  ⟨overlay_visible_iff_undecided.1 [(Except.ok "prompt", Except.ok ())] (by decide),
   overlay_visible_iff_undecided.2.1 activeSession "granted" (Except.ok ())
     (by decide) (Or.inl rfl) (by decide),
   overlay_visible_iff_undecided.2.2 activeSession (Except.error "boom")
     (Except.ok ()) (by decide)⟩

/-- C2: over any run of ticks from a started state, the number of
trigger-prompt calls equals the number of distinct transitions into the
undecided (`"prompt"`) state; per tick, the trigger fires exactly when
the tick is started, observes `"prompt"`, and `"prompt"` differs from
the stored state. -/
theorem trigger_once_per_prompt_transition :
    (∀ (l : List TickInput) (w : WatcherState), w.started = true →
      triggerCount (runActions w l) = specPromptTransitions w.lastState l)
    ∧ (∀ (w : WatcherState) (q : Except String String) (fr : Except String Unit),
        UiAction.trigger ∈ (watchPermission w q fr).actions ↔
          w.started = true ∧ q = Except.ok "prompt" ∧
            some "prompt" ≠ w.lastState) := by
  constructor
  · intro l w hs
    exact runActions_triggerCount l w hs
  · intro w q fr
    constructor
    · intro hm
      by_cases hs : w.started = true
      · cases q with
        | error e => rw [tick_error w e fr hs] at hm; simp at hm
        | ok s =>
          by_cases hsame : some s = w.lastState
          · rw [tick_same w s fr hs hsame] at hm; simp at hm
          · by_cases hp : s = "prompt"
            · subst hp
              exact ⟨hs, rfl, hsame⟩
            · by_cases hg : s = "granted"
              · subst hg; rw [tick_granted w fr hs hsame] at hm; simp at hm
              · by_cases hd : s = "denied"
                · subst hd; rw [tick_denied w fr hs hsame] at hm; simp at hm
                · rw [tick_other w s fr hs hsame hp hg hd] at hm; simp at hm
      · have hs2 : w.started = false := by
          revert hs; cases w.started <;> simp
        rw [tick_not_started w q fr hs2] at hm; simp at hm
    · rintro ⟨hs, rfl, hne⟩
      rw [tick_prompt w fr hs hne]
      simp

/-- Witness for C2: a run with two distinct transitions into `"prompt"`
(separated by a `"granted"` tick, with a redundant `"prompt"` tick in
between) performs exactly the matching trigger count. -/
theorem trigger_once_per_prompt_transition_witness :
    triggerCount (runActions activeSession
      [(Except.ok "prompt", Except.ok ()), (Except.ok "prompt", Except.error "x"),
       (Except.ok "granted", Except.ok ()), (Except.ok "prompt", Except.ok ())])
      = specPromptTransitions activeSession.lastState
      [(Except.ok "prompt", Except.ok ()), (Except.ok "prompt", Except.error "x"),
       (Except.ok "granted", Except.ok ()), (Except.ok "prompt", Except.ok ())] :=
  trigger_once_per_prompt_transition.1 _ activeSession rfl

/-- C4: a tick whose observed state equals the stored `lastState` is a
no-op: unchanged state (hence no show/hide), one oracle read, and an
empty action list (no trigger). -/
theorem same_state_tick_noop (w : WatcherState) (s : String)
    (fr : Except String Unit) (h : w.started = true)
    (h2 : some s = w.lastState) :
    watchPermission w (Except.ok s) fr = ⟨w, 1, []⟩ :=
  tick_same w s fr h h2

/-- Witness for C4: observing `"granted"` while `"granted"` is stored
changes nothing and performs no action. -/
theorem same_state_tick_noop_witness :
    watchPermission ⟨some "granted", true, injectDialog (injectStyle emptyDom)⟩
      (Except.ok "granted") (Except.ok ()) =
      ⟨⟨some "granted", true, injectDialog (injectStyle emptyDom)⟩, 1, []⟩ :=
  same_state_tick_noop _ "granted" _ rfl rfl

/-- C3 counterexample: a failed oracle read does not record `"unknown"` —
the tick aborts before the comparison, leaving the stored state exactly
as it was (`null` initially, or the last real value), and under an
all-error run the stored state never becomes `"unknown"`. -/
theorem failed_read_records_nothing :
    watchPermission activeSession (Except.error "boom") (Except.ok ())
      = ⟨activeSession, 1, []⟩
    ∧ (runTicks activeSession
        [(Except.error "boom", Except.ok ()),
         (Except.error "boom", Except.ok ())]).lastState = none
    ∧ (runTicks activeSession
        [(Except.ok "granted", Except.ok ()),
         (Except.error "boom", Except.ok ())]).lastState = some "granted"
    ∧ (runTicks activeSession
        [(Except.error "boom", Except.ok ()),
         (Except.error "boom", Except.ok ())]).lastState ≠ some "unknown" :=
  ⟨by decide, by decide, by decide, by decide⟩

/-- C3 amended: on a failed-read tick no presentation action occurs and
the stored state is left unchanged (nothing is recorded); when the
oracle fails on every call the watcher state stays exactly as it was
while the loop keeps ticking — one oracle read per tick, no actions,
and every tick returns normally. -/
theorem failed_reads_leave_state_unchanged (w : WatcherState)
    (errs : List (String × Except String Unit)) (hs : w.started = true) :
    runTicks w (errs.map fun e => (Except.error e.1, e.2)) = w
    ∧ runActions w (errs.map fun e => (Except.error e.1, e.2)) = []
    ∧ runOracleCalls w (errs.map fun e => (Except.error e.1, e.2))
        = errs.length := by
  refine ⟨runTicks_error_ticks errs w hs, ?_, ?_⟩
  · induction errs with
    | nil => rfl
    | cons e rest ih =>
      simp only [List.map_cons, runActions, tick_error w e.1 e.2 hs,
        List.nil_append]
      exact ih
  · induction errs with
    | nil => rfl
    | cons e rest ih =>
      simp only [List.map_cons, runOracleCalls, tick_error w e.1 e.2 hs,
        List.length_cons]
      rw [ih]
      omega

/-- Witness for the amended C3: two failing reads from the active session
leave the state untouched, perform no action, and make two oracle reads. -/
theorem failed_reads_leave_state_unchanged_witness :
    runTicks activeSession
      ([("a", Except.ok ()), ("b", Except.error "x")].map
        fun e => (Except.error e.1, e.2)) = activeSession
    ∧ runActions activeSession
      ([("a", Except.ok ()), ("b", Except.error "x")].map
        fun e => (Except.error e.1, e.2)) = []
    ∧ runOracleCalls activeSession
      ([("a", Except.ok ()), ("b", Except.error "x")].map
        fun e => (Except.error e.1, e.2))
        = [("a", Except.ok ()), ("b", Except.error "x")].length :=
  failed_reads_leave_state_unchanged activeSession
    [("a", Except.ok ()), ("b", Except.error "x")] rfl

/-- C5: the adapter never propagates a query failure — `queryLNA` maps any
thrown error to the `null` (`unknown`) outcome — and the tick on a
failed read aborts with no changes: stored state, overlay visibility
and DOM are exactly as before (the whole watcher state is returned
unchanged), one oracle read, no actions, no trigger. -/
theorem failed_query_aborts_tick (w : WatcherState) (e : String)
    (fr : Except String Unit) (hs : w.started = true) :
    queryLNA (Except.error e) = none
    ∧ watchPermission w (Except.error e) fr = ⟨w, 1, []⟩ :=
  ⟨rfl, tick_error w e fr hs⟩

/-- Witness for C5 at the active session with a concrete error. -/
theorem failed_query_aborts_tick_witness :
    queryLNA (Except.error "not supported") = none
    ∧ watchPermission activeSession (Except.error "not supported")
        (Except.ok ()) = ⟨activeSession, 1, []⟩ :=
  failed_query_aborts_tick activeSession "not supported" (Except.ok ()) rfl

/-- C6 counterexample: a first observation of `unknown` (failed read) does
not count as a transition — the very first tick bails out before the
equality comparison and is a complete no-op (stored state still `null`,
nothing recorded, no actions). -/
theorem first_unknown_tick_not_transition :
    activeSession.lastState = none
    ∧ watchPermission activeSession (Except.error "unsupported")
        (Except.ok ()) = ⟨activeSession, 1, []⟩ :=
  ⟨rfl, by decide⟩

/-- C6 amended: `lastState` starts as `null`, distinct from every real
permission state, so a first observation of any real (string) state is
a transition — the first tick stores it; but a first observed `unknown`
(failed read) aborts before the equality comparison and is a no-op, not
a transition. -/
theorem first_real_observation_is_transition :
    activeSession.lastState = none
    ∧ (∀ s : String, some s ≠ activeSession.lastState)
    ∧ (∀ (s : String) (fr : Except String Unit),
        (watchPermission activeSession (Except.ok s) fr).state.lastState
          = some s)
    ∧ (∀ (e : String) (fr : Except String Unit),
        (watchPermission activeSession (Except.error e) fr).state
          = activeSession) := by
  refine ⟨rfl, ?_, ?_, ?_⟩
  · intro s h
    exact Option.noConfusion h
  · intro s fr
    exact tick_change_lastState activeSession s fr rfl
      (fun h => Option.noConfusion h)
  · intro e fr
    rw [tick_error activeSession e fr rfl]

/-- C7: before the activation delay fires, `started` is false and any tick
bails out immediately: zero oracle reads, unchanged state, no actions. -/
theorem warmup_ticks_suppressed :
    initSession.started = false
    ∧ ∀ (w : WatcherState) (q : Except String String)
        (fr : Except String Unit),
        w.started = false → watchPermission w q fr = ⟨w, 0, []⟩ :=
  ⟨rfl, tick_not_started⟩

/-- Witness for C7: a warm-up tick on the freshly injected session reads
nothing and changes nothing even when the oracle would say `"prompt"`. -/
theorem warmup_ticks_suppressed_witness :
    watchPermission initSession (Except.ok "prompt") (Except.ok ())
      = ⟨initSession, 0, []⟩ :=
  warmup_ticks_suppressed.2 initSession (Except.ok "prompt")
    (Except.ok ()) rfl

/-- C8: `showDialog()` and `hideDialog()` are idempotent on the observable
UI state (body blocked-marker and overlay visible-marker), and when the
overlay element has not been injected they leave the overlay marker
alone (the `?.` guard makes them safe). -/
theorem show_hide_idempotent :
    (∀ d : Dom, showDialog (showDialog d) = showDialog d)
    ∧ (∀ d : Dom, hideDialog (hideDialog d) = hideDialog d)
    ∧ (∀ d : Dom, d.dialog = none →
        (showDialog d).dialog = none ∧ (hideDialog d).dialog = none) := by
  refine ⟨?_, ?_, ?_⟩
  · intro d
    cases h : d.dialog <;> simp [showDialog, h]
  · intro d
    cases h : d.dialog <;> simp [hideDialog, h]
  · intro d h
    simp [showDialog, hideDialog, h]

/-- Witness for C8's guard clause on a document with no overlay element. -/
theorem show_hide_idempotent_witness :
    (showDialog emptyDom).dialog = none
    ∧ (hideDialog emptyDom).dialog = none :=
  show_hide_idempotent.2.2 emptyDom rfl

/-- C9: the prompt trigger resolves successfully for every fetch outcome
(the `catch` swallows failures), and the entire tick result — stored
state, overlay, DOM, actions — is independent of how the
fire-and-forget fetch resolves. -/
theorem trigger_never_throws_never_mutates :
    (∀ fr : Except String Unit, triggerPrompt fr = Except.ok ())
    ∧ (∀ (w : WatcherState) (q : Except String String)
        (fr fr2 : Except String Unit),
        watchPermission w q fr = watchPermission w q fr2) := by
  constructor
  · intro fr
    cases fr <;> rfl
  · intro w q fr fr2
    rfl

/-- C10: along any valid run from the active session the stored state is
only ever `null` or one of the three real permission values — never
`"unknown"` — and a block of failed-read ticks is transparent: the next
successful observation is compared against the last successfully stored
state. -/
theorem lastState_never_unknown :
    ∀ l : List TickInput, (∀ i ∈ l, validOutcome i.1) →
      ((runTicks activeSession l).lastState = none ∨
        (runTicks activeSession l).lastState = some "prompt" ∨
        (runTicks activeSession l).lastState = some "granted" ∨
        (runTicks activeSession l).lastState = some "denied")
      ∧ (runTicks activeSession l).lastState ≠ some "unknown"
      ∧ ∀ (errs : List (String × Except String Unit)) (rest : List TickInput),
          runTicks activeSession
            (l ++ (errs.map fun e => (Except.error e.1, e.2)) ++ rest)
            = runTicks activeSession (l ++ rest) := by
  intro l hv
  obtain ⟨hs, hd, hvis, hreal⟩ :=
    runTicks_preserves_inv l activeSession inv_activeSession hv
  refine ⟨hreal, ?_, ?_⟩
  · intro h
    rcases hreal with h2 | h2 | h2 | h2 <;> rw [h2] at h <;>
      exact absurd h (by decide)
  · intro errs rest
    rw [runTicks_append, runTicks_append, runTicks_append,
      runTicks_error_ticks errs _ hs]

/-- Witness for C10 after one denied tick. -/
theorem lastState_never_unknown_witness :
    (runTicks activeSession
      [(Except.ok "denied", Except.ok ())]).lastState ≠ some "unknown" :=
  (lastState_never_unknown [(Except.ok "denied", Except.ok ())]
    (by decide)).2.1

/-- Witness for the amended C6: the first granted observation is stored. -/
theorem first_real_observation_is_transition_witness :
    (watchPermission activeSession (Except.ok "granted")
      (Except.ok ())).state.lastState = some "granted" :=
  first_real_observation_is_transition.2.2.1 "granted" (Except.ok ())
